import Mathlib

/-!
Verification of the OEE monitor (src/oee/oee_monitor.py) and the
configuration loader of the dashboard (src/oee/dashboardv1.py).

The monitor is a single-threaded polling loop.  Each iteration reads an
optional token from the serial device, advances the time-in-state
accumulators by the wall-clock time elapsed since the previous iteration,
and appends a row to the log when the hybrid (event or heartbeat) trigger
fires.  Wall-clock reads (`time.time()`), the serial input, and the link
fault of an iteration are supplied as an explicit `Tick`; times are
rationals, Python ints are `ℤ`.
-/

/-- Machine production state.  The Python code stores the raw strings
"GREEN" / "YELLOW" / "RED" / "STOPPED" in `self.current_state`; those four
strings are the only values it can hold, so they are modelled as an
enumeration. -/
inductive MachineState where
  | GREEN
  | YELLOW
  | RED
  | STOPPED
  deriving DecidableEq, Repr

/-- Token acceptance of the read step (oee_monitor.py line 161):
`if line in ["GREEN", "RED", "YELLOW"]: self.current_state = line`.
Any other line leaves the state unchanged (`none`). -/
def parseToken (line : String) : Option MachineState :=
  if line = "GREEN" then some .GREEN
  else if line = "RED" then some .RED
  else if line = "YELLOW" then some .YELLOW
  else none

/-- Configuration values the monitor reads in `__init__`
(`self.target_steps`, `self.ideal_cycle_time`). -/
structure Config where
  target_steps : ℤ
  ideal_cycle_time : ℚ
  deriving DecidableEq, Repr

/-- Mutable numeric state of `OEEMonitor` (oee_monitor.py lines 50-57). -/
structure MonitorState where
  current_state : MachineState
  start_time : ℚ
  time_production : ℚ
  time_setup : ℚ
  time_downtime : ℚ
  last_update_time : ℚ
  total_count : ℤ
  defect_count : ℤ
  deriving DecidableEq, Repr

/-- Python `int(x)` on a real value: truncation toward zero. -/
def pyTrunc (q : ℚ) : ℤ :=
  if q < 0 then -⌊-q⌋ else ⌊q⌋

/-- Fresh monitor state as built by `OEEMonitor.__init__` (lines 50-57):
state STOPPED, all accumulators and counters zero.  `t_start` and `t_upd`
are the two consecutive `time.time()` calls of lines 51 and 55. -/
def OEEMonitor.init (t_start t_upd : ℚ) : MonitorState where
  current_state := .STOPPED
  start_time := t_start
  time_production := 0
  time_setup := 0
  time_downtime := 0
  last_update_time := t_upd
  total_count := 0
  defect_count := 0

/-- Accumulator update of one loop iteration (oee_monitor.py lines 169-184,
the "# 2. Update Time" block).  `now` is the `time.time()` sample of line
170; `elapsed = now - self.last_update_time` is applied unclamped.  In the
GREEN branch `expected = int(self.time_production / self.ideal_cycle_time)`
is clamped to `target_steps` and `total_count` is only ever raised. -/
def OEEMonitor.update_time (cfg : Config) (s : MonitorState) (now : ℚ) :
    MonitorState :=
  let elapsed := now - s.last_update_time
  let s' := { s with last_update_time := now }
  match s.current_state with
  | .GREEN =>
      let tp := s.time_production + elapsed
      let expected := pyTrunc (tp / cfg.ideal_cycle_time)
      let expected := if expected > cfg.target_steps then cfg.target_steps
        else expected
      if expected > s.total_count then
        { s' with time_production := tp, total_count := expected }
      else
        { s' with time_production := tp }
  | .YELLOW => { s' with time_setup := s.time_setup + elapsed }
  | .RED => { s' with time_downtime := s.time_downtime + elapsed }
  | .STOPPED => s'

/-- Metric computation `OEEMonitor.calculate_oee` (lines 117-123), returned
as `(availability, performance, quality, oee)`.  `now` is the `time.time()`
sample of line 118; `total_planned = now - start_time`, and with
`total_planned < 1` every metric is reported as 0. -/
def OEEMonitor.calculate_oee (cfg : Config) (s : MonitorState) (now : ℚ) :
    ℚ × ℚ × ℚ × ℚ :=
  let total_planned := now - s.start_time
  if total_planned < 1 then (0, 0, 0, 0)
  else
    let a := s.time_production / total_planned
    let p := if s.time_production > 0 then
        ((s.total_count : ℚ) * cfg.ideal_cycle_time) / s.time_production
      else 0
    let q := if s.total_count > 0 then
        ((s.total_count : ℚ) - (s.defect_count : ℚ)) / (s.total_count : ℚ)
      else 1
    (a, p, q, a * p * q)

/-- Round-half-to-even to an integer, the semantics of Python's `round`. -/
def roundHalfEven (q : ℚ) : ℤ :=
  if q - ⌊q⌋ = 1/2 then (if ⌊q⌋ % 2 = 0 then ⌊q⌋ else ⌊q⌋ + 1)
  else round q

/-- Python `round(x, 1)`: round-half-to-even at one decimal place. -/
def round1 (q : ℚ) : ℚ :=
  (roundHalfEven (q * 10) : ℚ) / 10

/-- Row inserted into the `oee_logs` table by `OEEMonitor.log_to_db`
(lines 125-149).  The wall-clock timestamp string of line 136 carries no
information used by any property and is omitted.  Times are rounded to one
decimal, metrics are scaled to percentages and rounded to one decimal. -/
structure LogRecord where
  state : MachineState
  prod_time : ℚ
  setup_time : ℚ
  down_time : ℚ
  total_count : ℤ
  defect_count : ℤ
  availability : ℚ
  performance : ℚ
  quality : ℚ
  oee : ℚ
  deriving DecidableEq, Repr

/-- Record construction of `OEEMonitor.log_to_db` (lines 125-149).
`t_calc` is the `time.time()` sample taken inside the nested
`calculate_oee` call. -/
def OEEMonitor.log_to_db (cfg : Config) (s : MonitorState) (t_calc : ℚ) :
    LogRecord :=
  let m := OEEMonitor.calculate_oee cfg s t_calc
  { state := s.current_state
    prod_time := round1 s.time_production
    setup_time := round1 s.time_setup
    down_time := round1 s.time_downtime
    total_count := s.total_count
    defect_count := s.defect_count
    availability := round1 (m.1 * 100)
    performance := round1 (m.2.1 * 100)
    quality := round1 (m.2.2.1 * 100)
    oee := round1 (m.2.2.2 * 100) }

/-- Serial read outcome of one iteration (lines 158-167): no byte waiting,
a decoded line, or an `OSError` / `SerialException` (link lost, which makes
the iteration reconnect and `continue`). -/
inductive TickInput where
  | noData
  | data (line : String)
  | linkLost
  deriving DecidableEq, Repr

/-- Environment of one loop iteration: the serial outcome, the four
`time.time()` samples the iteration can take — `now` at line 170, `t_hb`
in the heartbeat test of line 188, `t_calc` inside `calculate_oee` during
`log_to_db`, and `t_reset` when `last_log_time` is reset at line 200 —
and `log_fails`, whether the `log_to_db()` call raises (the exception
swallowed by the `try/except` of lines 194-197, e.g. a full disk): on a
failure no row is inserted but the iteration continues. -/
structure Tick where
  input : TickInput
  now : ℚ
  t_hb : ℚ
  t_calc : ℚ
  t_reset : ℚ
  log_fails : Bool
  deriving DecidableEq, Repr

/-- State owned by `OEEMonitor.run` (lines 151-153): the monitor fields,
`last_logged_state` (initially `None`), `last_log_time`, and the rows
inserted so far. -/
structure LoopState where
  ms : MonitorState
  last_logged_state : Option MachineState
  last_log_time : ℚ
  log : List LogRecord
  deriving DecidableEq, Repr

/-- Current state after the serial-read step of an iteration
(lines 158-162): a recognized token replaces the state, anything else
keeps it. -/
def OEEMonitor.nextState (cur : MachineState) : TickInput → MachineState
  | .noData => cur
  | .linkLost => cur
  | .data line =>
      match parseToken line with
      | some st => st
      | none => cur

/-- Hybrid logging trigger (lines 187-190):
`state_changed or heartbeat_due`, with
`state_changed = (self.current_state != last_logged_state)` and
`heartbeat_due = (time.time() - last_log_time >= 1.0)`. -/
def OEEMonitor.logTrigger (ls : LoopState) (cs : MachineState) (t_hb : ℚ) :
    Bool :=
  decide (some cs ≠ ls.last_logged_state) ||
    decide (t_hb - ls.last_log_time ≥ 1)

/-- One iteration of the `while True` loop of `OEEMonitor.run`
(lines 156-202).  A link fault closes and reopens the connection and
`continue`s, touching none of the modelled state.  Otherwise the iteration
updates `current_state` from the input, advances the accumulators, and on
the hybrid trigger attempts a row insert: the `log_to_db()` call sits in
`try/except` (lines 194-197), so a failing write inserts nothing, yet
lines 199-200 still record the logged state and reset the shared
last-write timestamp after a failed attempt. -/
def OEEMonitor.run_step (cfg : Config) (ls : LoopState) (tk : Tick) :
    LoopState :=
  if tk.input = .linkLost then ls
  else
    let cs := OEEMonitor.nextState ls.ms.current_state tk.input
    let s1 := OEEMonitor.update_time cfg { ls.ms with current_state := cs }
      tk.now
    if OEEMonitor.logTrigger ls s1.current_state tk.t_hb then
      { ms := s1
        last_logged_state := some s1.current_state
        last_log_time := tk.t_reset
        log := if tk.log_fails then ls.log
          else ls.log ++ [OEEMonitor.log_to_db cfg s1 tk.t_calc] }
    else
      { ls with ms := s1 }

/-- The monitor loop over a finite sequence of iterations. -/
def OEEMonitor.run (cfg : Config) (ls : LoopState) (ticks : List Tick) :
    LoopState :=
  ticks.foldl (OEEMonitor.run_step cfg) ls

/-- Loop state at entry of `OEEMonitor.run` (lines 152-153):
`last_logged_state = None`, `last_log_time = time.time()` (the sample
`t_log`), no rows inserted yet. -/
def OEEMonitor.run_init (s : MonitorState) (t_log : ℚ) : LoopState where
  ms := s
  last_logged_state := none
  last_log_time := t_log
  log := []

/-- Monitor loop state at startup: `__init__` followed by entry of `run`. -/
def OEEMonitor.initial_loop_state (t_start t_upd t_log : ℚ) : LoopState :=
  OEEMonitor.run_init (OEEMonitor.init t_start t_upd) t_log

/-- Contents of `config.yaml` as a loader sees it: absent, present but
rejected by the YAML parser, or successfully parsed to `α`. -/
inductive ConfigSource (α : Type) where
  | missing
  | malformed
  | parsed (content : α)
  deriving DecidableEq, Repr

/-- Production section of the configuration. -/
structure ProductionSettings where
  target_steps : ℤ
  ideal_cycle_time : ℚ
  deriving DecidableEq, Repr

/-- Serial section of the configuration. -/
structure SerialSettings where
  port : String
  baud_rate : ℤ
  deriving DecidableEq, Repr

/-- Dict shape returned by the monitor's `load_config`
(oee_monitor.py lines 13-17). -/
structure MonitorConfigDict where
  serial : SerialSettings
  production : ProductionSettings
  database_path : String
  deriving DecidableEq, Repr

/-- Built-in defaults of the monitor's `load_config` (lines 13-17). -/
def oee_monitor.default_config : MonitorConfigDict where
  serial := { port := "/dev/cu.usbmodem1401", baud_rate := 9600 }
  production := { target_steps := 30, ideal_cycle_time := 20 }
  database_path := "oee_data.db"

/-- Loader `load_config` of oee_monitor.py (lines 9-19).  A missing file
returns the built-in defaults; an existing file is handed to
`yaml.safe_load` with no exception handler, so a malformed file raises
(modelled as `Except.error`) and a parsed file is returned as-is. -/
def oee_monitor.load_config :
    ConfigSource MonitorConfigDict → Except String MonitorConfigDict
  | .missing => .ok oee_monitor.default_config
  | .malformed => .error "YAMLError"
  | .parsed c => .ok c

/-- Python `s.startswith(p)`, on the character lists of the strings. -/
def py_startswith (s p : String) : Bool :=
  p.data.isPrefixOf s.data

/-- POSIX `os.path.isabs`: the path begins with a slash. -/
def os_path_isabs (p : String) : Bool :=
  py_startswith p "/"

/-- User-supplied part of `config.yaml` as the dashboard reads it: an
optional `production` section and an optional `data_path` entry. -/
structure DashboardUserConfig where
  production : Option ProductionSettings
  data_path : Option String
  deriving DecidableEq, Repr

/-- Configuration assembled by the dashboard's `load_config`. -/
structure DashboardConfig where
  target_steps : ℤ
  ideal_cycle_time : ℚ
  data_path : String
  deriving DecidableEq, Repr

/-- Default log directory of the dashboard (dashboardv1.py lines 20-24):
`os.path.join(home_dir, "oee-project", "oee_logs")`. -/
def dashboardv1.default_log_dir (home_dir : String) : String :=
  home_dir ++ "/oee-project/oee_logs"

/-- Loader `load_config` of dashboardv1.py (lines 14-59).  Defaults are
`target_steps = 30`, `ideal_cycle_time = 20.0` and the default log
directory.  A missing file keeps the defaults; the file read and parse sit
inside `try/except`, so a malformed file also keeps the defaults.  A parsed
file updates the production section when present, and a proposed
`data_path` is adopted when `os.path.isabs(p) or not p.startswith("..")`
holds, otherwise a security warning is shown (`st.error`, line 55, the
returned Boolean) and the default path is kept. -/
def dashboardv1.load_config (home_dir : String)
    (src : ConfigSource DashboardUserConfig) : DashboardConfig × Bool :=
  let base : DashboardConfig :=
    { target_steps := 30
      ideal_cycle_time := 20
      data_path := dashboardv1.default_log_dir home_dir }
  match src with
  | .missing => (base, false)
  | .malformed => (base, false)
  | .parsed u =>
      let c1 := match u.production with
        | some ps =>
            { base with
              target_steps := ps.target_steps
              ideal_cycle_time := ps.ideal_cycle_time }
        | none => base
      match u.data_path with
      | none => (c1, false)
      | some proposed =>
          if os_path_isabs proposed || !(py_startswith proposed "..") then
            ({ c1 with data_path := proposed }, false)
          else
            (c1, true)

/-- Splits a character list at slashes into path components. -/
def splitSlashAux : List Char → List Char → List String
  | acc, [] => [String.mk acc.reverse]
  | acc, c :: rest =>
      if c = '/' then String.mk acc.reverse :: splitSlashAux [] rest
      else splitSlashAux (c :: acc) rest

/-- Path components of a POSIX path, dropping empty components and `.`. -/
def splitPath (p : String) : List String :=
  (splitSlashAux [] p.data).filter (fun c => !(c == "") && !(c == "."))

/-- Resolves `..` components by discarding the preceding component. -/
def resolveComponents (comps : List String) : List String :=
  comps.foldl (fun stack c => if c = ".." then stack.dropLast else stack ++ [c])
    []

/-- Follows the spec's words ("a configured data path that must be rejected
if it escapes the allowed directory tree"): a proposed path escapes the
tree rooted at `root` when its resolved form — resolved against `root` if
relative — does not stay below the resolved root. -/
def spec_escapesAllowedTree (root p : String) : Bool :=
  let rootC := resolveComponents (splitPath root)
  let target :=
    if os_path_isabs p then resolveComponents (splitPath p)
    else resolveComponents (splitPath root ++ splitPath p)
  !(rootC.isPrefixOf target)

/-- The accumulator update never lowers `total_count`: the count is only
assigned when the new expected count strictly exceeds it. -/
theorem OEEMonitor.update_time_total_count_mono (cfg : Config)
    (s : MonitorState) (now : ℚ) :
    s.total_count ≤ (OEEMonitor.update_time cfg s now).total_count := by
  unfold OEEMonitor.update_time
  cases s.current_state <;> simp only []
  case GREEN =>
    split <;> split
    all_goals first
      | exact le_refl _
      | (next h => exact le_of_lt h)
  case YELLOW => exact le_refl _
  case RED => exact le_refl _
  case STOPPED => exact le_refl _

/-- The accumulator update keeps `total_count` at or below `target_steps`,
because the expected count is clamped to `target_steps` before any
assignment. -/
theorem OEEMonitor.update_time_total_count_le_target (cfg : Config)
    (s : MonitorState) (now : ℚ) (h : s.total_count ≤ cfg.target_steps) :
    (OEEMonitor.update_time cfg s now).total_count ≤ cfg.target_steps := by
  unfold OEEMonitor.update_time
  cases s.current_state <;> simp only []
  case GREEN =>
    split
    · split
      · exact le_refl _
      · exact h
    · next h2 =>
        split
        · exact not_lt.mp h2
        · exact h
  case YELLOW => exact h
  case RED => exact h
  case STOPPED => exact h

/-- In every branch of a loop iteration the monitor fields are either left
alone (link lost) or replaced by the accumulator update of the read state. -/
theorem OEEMonitor.run_step_ms (cfg : Config) (ls : LoopState) (tk : Tick) :
    (OEEMonitor.run_step cfg ls tk).ms = ls.ms ∧ tk.input = .linkLost ∨
    (OEEMonitor.run_step cfg ls tk).ms =
      OEEMonitor.update_time cfg
        { ls.ms with
          current_state := OEEMonitor.nextState ls.ms.current_state tk.input }
        tk.now := by
  unfold OEEMonitor.run_step
  by_cases hin : tk.input = .linkLost
  · left; rw [if_pos hin]; exact ⟨rfl, hin⟩
  · right; rw [if_neg hin]; dsimp only; split <;> rfl

/-- A single loop iteration never lowers `total_count`. -/
theorem OEEMonitor.run_step_total_count_mono (cfg : Config) (ls : LoopState)
    (tk : Tick) :
    ls.ms.total_count ≤ (OEEMonitor.run_step cfg ls tk).ms.total_count := by
  rcases OEEMonitor.run_step_ms cfg ls tk with ⟨heq, _⟩ | heq
  · rw [heq]
  · rw [heq]; exact OEEMonitor.update_time_total_count_mono _ _ _

/-- A single loop iteration keeps `total_count ≤ target_steps`. -/
theorem OEEMonitor.run_step_total_count_le_target (cfg : Config)
    (ls : LoopState) (tk : Tick) (h : ls.ms.total_count ≤ cfg.target_steps) :
    (OEEMonitor.run_step cfg ls tk).ms.total_count ≤ cfg.target_steps := by
  rcases OEEMonitor.run_step_ms cfg ls tk with ⟨heq, _⟩ | heq
  · rw [heq]; exact h
  · rw [heq]; exact OEEMonitor.update_time_total_count_le_target _ _ _ h

/-- Running the loop over a concatenation runs the two parts in order. -/
theorem OEEMonitor.run_append (cfg : Config) (ls : LoopState)
    (a b : List Tick) :
    OEEMonitor.run cfg ls (a ++ b) =
      OEEMonitor.run cfg (OEEMonitor.run cfg ls a) b :=
  List.foldl_append _ _ _ _

/-- Over any tick sequence, `total_count` never decreases. -/
theorem OEEMonitor.run_total_count_mono (cfg : Config) (ls : LoopState)
    (ticks : List Tick) :
    ls.ms.total_count ≤ (OEEMonitor.run cfg ls ticks).ms.total_count := by
  induction ticks generalizing ls with
  | nil => exact le_refl _
  | cons tk rest ih =>
      exact le_trans (OEEMonitor.run_step_total_count_mono cfg ls tk)
        (ih (OEEMonitor.run_step cfg ls tk))

/-- Over any tick sequence, `total_count ≤ target_steps` is preserved. -/
theorem OEEMonitor.run_total_count_le_target (cfg : Config) (ls : LoopState)
    (ticks : List Tick) (h : ls.ms.total_count ≤ cfg.target_steps) :
    (OEEMonitor.run cfg ls ticks).ms.total_count ≤ cfg.target_steps := by
  induction ticks generalizing ls with
  | nil => exact h
  | cons tk rest ih =>
      exact ih (OEEMonitor.run_step cfg ls tk)
        (OEEMonitor.run_step_total_count_le_target cfg ls tk h)

/-- C1: for every sequence of ticks processed by the monitor loop (any
states, any elapsed times), `total_count` is monotonically non-decreasing —
the count after any prefix is at most the count after the whole sequence —
and, for a configured `target_steps ≥ 0`, it never exceeds `target_steps`. -/
theorem C1_total_count_monotone_and_capped (cfg : Config)
    (t_start t_upd t_log : ℚ) (ticks pre suf : List Tick)
    (hsplit : ticks = pre ++ suf) (htarget : 0 ≤ cfg.target_steps) :
    (OEEMonitor.run cfg (OEEMonitor.initial_loop_state t_start t_upd t_log)
        pre).ms.total_count ≤
      (OEEMonitor.run cfg (OEEMonitor.initial_loop_state t_start t_upd t_log)
        ticks).ms.total_count ∧
    (OEEMonitor.run cfg (OEEMonitor.initial_loop_state t_start t_upd t_log)
        ticks).ms.total_count ≤ cfg.target_steps := by
  subst hsplit
  constructor
  · rw [OEEMonitor.run_append]
    exact OEEMonitor.run_total_count_mono cfg _ suf
  · exact OEEMonitor.run_total_count_le_target cfg _ _ htarget

/-- Witness for C1 at a concrete run: default configuration, one GREEN
tick of 40 seconds appended to the empty prefix. -/
theorem C1_total_count_monotone_and_capped_witness :
    (OEEMonitor.run { target_steps := 30, ideal_cycle_time := 20 }
        (OEEMonitor.initial_loop_state 0 0 0) []).ms.total_count ≤
      (OEEMonitor.run { target_steps := 30, ideal_cycle_time := 20 }
        (OEEMonitor.initial_loop_state 0 0 0)
        [{ input := .data "GREEN", now := 40, t_hb := 40, t_calc := 40,
           t_reset := 40, log_fails := false }]).ms.total_count ∧
    (OEEMonitor.run { target_steps := 30, ideal_cycle_time := 20 }
        (OEEMonitor.initial_loop_state 0 0 0)
        [{ input := .data "GREEN", now := 40, t_hb := 40, t_calc := 40,
           t_reset := 40, log_fails := false }]).ms.total_count ≤
      ({ target_steps := 30, ideal_cycle_time := 20 } : Config).target_steps :=
  C1_total_count_monotone_and_capped
    { target_steps := 30, ideal_cycle_time := 20 } 0 0 0
    [{ input := .data "GREEN", now := 40, t_hb := 40, t_calc := 40,
       t_reset := 40, log_fails := false }] []
    [{ input := .data "GREEN", now := 40, t_hb := 40, t_calc := 40,
       t_reset := 40, log_fails := false }] rfl (by decide)

/-- Constructor disequality used to reduce the link-lost test. -/
theorem TickInput.noData_eq_linkLost_iff_false :
    (TickInput.noData = TickInput.linkLost) = False := by simp

/-- Constructor disequality used to reduce the link-lost test. -/
theorem TickInput.data_eq_linkLost_iff_false (line : String) :
    (TickInput.data line = TickInput.linkLost) = False := by simp

/-- Sum of the three time-in-state accumulators. -/
def accSum (s : MonitorState) : ℚ :=
  s.time_production + s.time_setup + s.time_downtime

/-- Wall-clock time a tick attributes to an accumulator: its elapsed time
`now - last_update_time` when the iteration completes its update step in a
non-STOPPED state, and nothing on a link-lost iteration or in STOPPED. -/
def OEEMonitor.tickContribution (ls : LoopState) (tk : Tick) : ℚ :=
  if tk.input = .linkLost then 0
  else if OEEMonitor.nextState ls.ms.current_state tk.input = .STOPPED then 0
  else tk.now - ls.ms.last_update_time

/-- Total elapsed time attributed to non-STOPPED states along a run. -/
def OEEMonitor.activeElapsed (cfg : Config) : LoopState → List Tick → ℚ
  | _, [] => 0
  | ls, tk :: rest =>
      OEEMonitor.tickContribution ls tk +
        OEEMonitor.activeElapsed cfg (OEEMonitor.run_step cfg ls tk) rest

/-- The accumulator update adds the elapsed time to the sum of the three
accumulators, except in STOPPED where the sum is unchanged. -/
theorem OEEMonitor.update_time_accSum (cfg : Config) (s : MonitorState)
    (now : ℚ) :
    accSum (OEEMonitor.update_time cfg s now) =
      accSum s +
        (if s.current_state = .STOPPED then 0 else now - s.last_update_time) := by
  unfold OEEMonitor.update_time accSum
  cases s.current_state <;> simp only []
  case GREEN =>
    split <;> split <;>
      (rw [if_neg (show ¬(MachineState.GREEN = MachineState.STOPPED) by simp)];
        ring)
  case YELLOW =>
    rw [if_neg (show ¬(MachineState.YELLOW = MachineState.STOPPED) by simp)]
    ring
  case RED =>
    rw [if_neg (show ¬(MachineState.RED = MachineState.STOPPED) by simp)]
    ring
  case STOPPED => rw [if_pos trivial]; ring

/-- One iteration adds exactly its contribution to the accumulator sum. -/
theorem OEEMonitor.run_step_accSum (cfg : Config) (ls : LoopState)
    (tk : Tick) :
    accSum (OEEMonitor.run_step cfg ls tk).ms =
      accSum ls.ms + OEEMonitor.tickContribution ls tk := by
  unfold OEEMonitor.tickContribution
  by_cases hin : tk.input = .linkLost
  · simp [OEEMonitor.run_step, hin]
  · rcases OEEMonitor.run_step_ms cfg ls tk with ⟨_, h2⟩ | heq
    · exact absurd h2 hin
    · rw [heq, if_neg hin, OEEMonitor.update_time_accSum]
      dsimp only
      rfl

/-- The accumulator sum over a run equals the starting sum plus the total
attributed elapsed time. -/
theorem OEEMonitor.run_accSum (cfg : Config) (ls : LoopState)
    (ticks : List Tick) :
    accSum (OEEMonitor.run cfg ls ticks).ms =
      accSum ls.ms + OEEMonitor.activeElapsed cfg ls ticks := by
  induction ticks generalizing ls with
  | nil => simp [OEEMonitor.run, OEEMonitor.activeElapsed]
  | cons tk rest ih =>
      have hrun : OEEMonitor.run cfg ls (tk :: rest) =
          OEEMonitor.run cfg (OEEMonitor.run_step cfg ls tk) rest := rfl
      have hcons : OEEMonitor.activeElapsed cfg ls (tk :: rest) =
          OEEMonitor.tickContribution ls tk +
            OEEMonitor.activeElapsed cfg (OEEMonitor.run_step cfg ls tk)
              rest := rfl
      rw [hrun, ih, OEEMonitor.run_step_accSum, hcons]
      ring

/-- C2 (amended): at every point during a run,
`production_time + setup_time + downtime` equals exactly the sum of the
per-tick elapsed times attributed to iterations whose state after the read
step is GREEN, YELLOW or RED; iterations in STOPPED and link-lost
iterations attribute nothing, so the sum equals the elapsed wall-clock
time only when no time passes in STOPPED. -/
theorem C2_accumulators_sum_to_attributed_time (cfg : Config)
    (t_start t_upd t_log : ℚ) (ticks : List Tick) :
    accSum (OEEMonitor.run cfg
        (OEEMonitor.initial_loop_state t_start t_upd t_log) ticks).ms =
      OEEMonitor.activeElapsed cfg
        (OEEMonitor.initial_loop_state t_start t_upd t_log) ticks := by
  have h := OEEMonitor.run_accSum cfg
    (OEEMonitor.initial_loop_state t_start t_upd t_log) ticks
  simpa [accSum, OEEMonitor.initial_loop_state, OEEMonitor.run_init,
    OEEMonitor.init] using h

/-- C2 counterexample: after a single 10-second iteration spent in the
initial STOPPED state, the accumulators sum to 0 while 10 seconds of
wall-clock time elapsed since the monitor started, so the sum is not
within one polling interval (0.1 s) of the elapsed time. -/
theorem C2_counterexample :
    ¬ (|accSum (OEEMonitor.run { target_steps := 30, ideal_cycle_time := 20 }
          (OEEMonitor.initial_loop_state 0 0 0)
          [{ input := .noData, now := 10, t_hb := 10, t_calc := 10,
             t_reset := 10, log_fails := false }]).ms -
        ((OEEMonitor.run { target_steps := 30, ideal_cycle_time := 20 }
            (OEEMonitor.initial_loop_state 0 0 0)
            [{ input := .noData, now := 10, t_hb := 10, t_calc := 10,
               t_reset := 10, log_fails := false }]).ms.last_update_time -
          (OEEMonitor.run { target_steps := 30, ideal_cycle_time := 20 }
              (OEEMonitor.initial_loop_state 0 0 0)
              [{ input := .noData, now := 10, t_hb := 10, t_calc := 10,
                 t_reset := 10, log_fails := false }]).ms.start_time)| ≤ 1/10) := by
  norm_num [OEEMonitor.run, OEEMonitor.run_step, OEEMonitor.update_time,
    OEEMonitor.nextState, OEEMonitor.logTrigger, OEEMonitor.initial_loop_state,
    OEEMonitor.run_init, OEEMonitor.init, accSum,
    TickInput.noData_eq_linkLost_iff_false]

/-- C3: evaluation of the code at the failing input.  A GREEN tick brings
`production_time` to 20 s; a following tick whose wall-clock sample moved
backward to 15 s applies the unclamped negative elapsed time, and
`production_time` decreases from 20 to 15. -/
theorem C3_backward_clock_decreases_production_time :
    (OEEMonitor.run { target_steps := 30, ideal_cycle_time := 20 }
        (OEEMonitor.initial_loop_state 0 0 0)
        [{ input := .data "GREEN", now := 20, t_hb := 20, t_calc := 20,
           t_reset := 20, log_fails := false }]).ms.time_production = 20 ∧
    (OEEMonitor.run { target_steps := 30, ideal_cycle_time := 20 }
        (OEEMonitor.initial_loop_state 0 0 0)
        [{ input := .data "GREEN", now := 20, t_hb := 20, t_calc := 20,
           t_reset := 20, log_fails := false },
         { input := .noData, now := 15, t_hb := 15, t_calc := 15,
           t_reset := 15, log_fails := false }]).ms.time_production = 15 := by
  constructor <;>
    norm_num [OEEMonitor.run, OEEMonitor.run_step, OEEMonitor.update_time,
      OEEMonitor.nextState, OEEMonitor.logTrigger,
      OEEMonitor.initial_loop_state, OEEMonitor.run_init, OEEMonitor.init,
      parseToken, pyTrunc, TickInput.noData_eq_linkLost_iff_false,
      TickInput.data_eq_linkLost_iff_false]

/-- C4 counterexample: with `production_time = 1`, `total_count = 1` and
`ideal_cycle_time = 20`, the performance metric evaluates to 20, so it does
not lie in [0,1]. -/
theorem C4_counterexample :
    ¬ ((OEEMonitor.calculate_oee { target_steps := 30, ideal_cycle_time := 20 }
        { current_state := .GREEN, start_time := 0, time_production := 1,
          time_setup := 0, time_downtime := 0, last_update_time := 2,
          total_count := 1, defect_count := 0 } 2).2.1 ≤ 1) := by
  norm_num [OEEMonitor.calculate_oee]

/-- C4 (amended): for nonnegative accumulators and counters with
`defect_count ≤ total_count`, a nonnegative ideal cycle time, and
`production_time` at most the planned time, availability and quality lie in
[0,1] and all four metrics are nonnegative; performance (and hence oee) is
not bounded above by 1 — the code applies no clamping. -/
theorem C4_metrics_bounds (cfg : Config) (s : MonitorState) (now : ℚ)
    (hict : 0 ≤ cfg.ideal_cycle_time) (htp : 0 ≤ s.time_production)
    (htc : 0 ≤ s.total_count) (hdc : 0 ≤ s.defect_count)
    (hdctc : s.defect_count ≤ s.total_count)
    (htpl : s.time_production ≤ now - s.start_time) :
    0 ≤ (OEEMonitor.calculate_oee cfg s now).1 ∧
    (OEEMonitor.calculate_oee cfg s now).1 ≤ 1 ∧
    0 ≤ (OEEMonitor.calculate_oee cfg s now).2.1 ∧
    0 ≤ (OEEMonitor.calculate_oee cfg s now).2.2.1 ∧
    (OEEMonitor.calculate_oee cfg s now).2.2.1 ≤ 1 ∧
    0 ≤ (OEEMonitor.calculate_oee cfg s now).2.2.2 := by
  unfold OEEMonitor.calculate_oee
  by_cases hg : now - s.start_time < 1
  · rw [if_pos hg]
    norm_num
  · rw [if_neg hg]
    dsimp only
    have hpl : (0:ℚ) < now - s.start_time :=
      lt_of_lt_of_le one_pos (not_lt.mp hg)
    have ha0 : 0 ≤ s.time_production / (now - s.start_time) :=
      div_nonneg htp (le_of_lt hpl)
    have ha1 : s.time_production / (now - s.start_time) ≤ 1 :=
      (div_le_one hpl).mpr htpl
    have hp0 : 0 ≤ (if s.time_production > 0 then
        ((s.total_count : ℚ) * cfg.ideal_cycle_time) / s.time_production
      else 0) := by
      split
      · exact div_nonneg (mul_nonneg (by exact_mod_cast htc) hict) htp
      · exact le_refl 0
    have hq0 : 0 ≤ (if s.total_count > 0 then
        ((s.total_count : ℚ) - (s.defect_count : ℚ)) / (s.total_count : ℚ)
      else 1) := by
      split
      · next h =>
          exact div_nonneg (sub_nonneg.mpr (by exact_mod_cast hdctc))
            (by exact_mod_cast le_of_lt h)
      · norm_num
    have hq1 : (if s.total_count > 0 then
        ((s.total_count : ℚ) - (s.defect_count : ℚ)) / (s.total_count : ℚ)
      else 1) ≤ 1 := by
      split
      · next h =>
          refine (div_le_one (by exact_mod_cast h)).mpr ?_
          have : (0:ℚ) ≤ (s.defect_count : ℚ) := by exact_mod_cast hdc
          linarith
      · exact le_refl 1
    exact ⟨ha0, ha1, hp0, hq0, hq1,
      mul_nonneg (mul_nonneg ha0 hp0) hq0⟩

/-- Witness for C4 at a concrete input: one produced unit after one second
of production inside two seconds of planned time. -/
theorem C4_metrics_bounds_witness :
    0 ≤ (OEEMonitor.calculate_oee { target_steps := 30, ideal_cycle_time := 20 }
        { current_state := .GREEN, start_time := 0, time_production := 1,
          time_setup := 0, time_downtime := 0, last_update_time := 2,
          total_count := 1, defect_count := 0 } 2).1 ∧
    (OEEMonitor.calculate_oee { target_steps := 30, ideal_cycle_time := 20 }
        { current_state := .GREEN, start_time := 0, time_production := 1,
          time_setup := 0, time_downtime := 0, last_update_time := 2,
          total_count := 1, defect_count := 0 } 2).1 ≤ 1 ∧
    0 ≤ (OEEMonitor.calculate_oee { target_steps := 30, ideal_cycle_time := 20 }
        { current_state := .GREEN, start_time := 0, time_production := 1,
          time_setup := 0, time_downtime := 0, last_update_time := 2,
          total_count := 1, defect_count := 0 } 2).2.1 ∧
    0 ≤ (OEEMonitor.calculate_oee { target_steps := 30, ideal_cycle_time := 20 }
        { current_state := .GREEN, start_time := 0, time_production := 1,
          time_setup := 0, time_downtime := 0, last_update_time := 2,
          total_count := 1, defect_count := 0 } 2).2.2.1 ∧
    (OEEMonitor.calculate_oee { target_steps := 30, ideal_cycle_time := 20 }
        { current_state := .GREEN, start_time := 0, time_production := 1,
          time_setup := 0, time_downtime := 0, last_update_time := 2,
          total_count := 1, defect_count := 0 } 2).2.2.1 ≤ 1 ∧
    0 ≤ (OEEMonitor.calculate_oee { target_steps := 30, ideal_cycle_time := 20 }
        { current_state := .GREEN, start_time := 0, time_production := 1,
          time_setup := 0, time_downtime := 0, last_update_time := 2,
          total_count := 1, defect_count := 0 } 2).2.2.2 :=
  C4_metrics_bounds { target_steps := 30, ideal_cycle_time := 20 }
    { current_state := .GREEN, start_time := 0, time_production := 1,
      time_setup := 0, time_downtime := 0, last_update_time := 2,
      total_count := 1, defect_count := 0 } 2
    (by norm_num) (by norm_num) (by norm_num) (by norm_num) (by norm_num)
    (by norm_num)

/-- C5 counterexample: with unchanged accumulators and counters, two calls
of the calculator at wall-clock instants 2 and 4 return different
availability values (1/2 versus 1/4), so the two calls are not identical. -/
theorem C5_counterexample :
    (OEEMonitor.calculate_oee { target_steps := 30, ideal_cycle_time := 20 }
        { current_state := .GREEN, start_time := 0, time_production := 1,
          time_setup := 0, time_downtime := 0, last_update_time := 2,
          total_count := 1, defect_count := 0 } 2).1 ≠
      (OEEMonitor.calculate_oee { target_steps := 30, ideal_cycle_time := 20 }
        { current_state := .GREEN, start_time := 0, time_production := 1,
          time_setup := 0, time_downtime := 0, last_update_time := 2,
          total_count := 1, defect_count := 0 } 4).1 := by
  norm_num [OEEMonitor.calculate_oee]

/-- C5 (amended): the calculator is a pure function of the configuration,
the accumulators/counters and the wall-clock instant of the call — it
advances no state — but it reads the wall clock for the availability
denominator, so only the performance and quality components are guaranteed
identical across two calls with unchanged accumulators and counters (once
both calls are past the startup guard); availability, and with it oee, may
differ between instants. -/
theorem C5_repeat_call_components (cfg : Config) (s : MonitorState)
    (t1 t2 : ℚ) (h1 : 1 ≤ t1 - s.start_time) (h2 : 1 ≤ t2 - s.start_time) :
    (OEEMonitor.calculate_oee cfg s t1).2.1 =
      (OEEMonitor.calculate_oee cfg s t2).2.1 ∧
    (OEEMonitor.calculate_oee cfg s t1).2.2.1 =
      (OEEMonitor.calculate_oee cfg s t2).2.2.1 := by
  unfold OEEMonitor.calculate_oee
  rw [if_neg (not_lt.mpr h1), if_neg (not_lt.mpr h2)]
  exact ⟨rfl, rfl⟩

/-- Witness for C5 at the instants 2 and 4 of the counterexample state. -/
theorem C5_repeat_call_components_witness :
    (OEEMonitor.calculate_oee { target_steps := 30, ideal_cycle_time := 20 }
        { current_state := .GREEN, start_time := 0, time_production := 1,
          time_setup := 0, time_downtime := 0, last_update_time := 2,
          total_count := 1, defect_count := 0 } 2).2.1 =
      (OEEMonitor.calculate_oee { target_steps := 30, ideal_cycle_time := 20 }
        { current_state := .GREEN, start_time := 0, time_production := 1,
          time_setup := 0, time_downtime := 0, last_update_time := 2,
          total_count := 1, defect_count := 0 } 4).2.1 ∧
    (OEEMonitor.calculate_oee { target_steps := 30, ideal_cycle_time := 20 }
        { current_state := .GREEN, start_time := 0, time_production := 1,
          time_setup := 0, time_downtime := 0, last_update_time := 2,
          total_count := 1, defect_count := 0 } 2).2.2.1 =
      (OEEMonitor.calculate_oee { target_steps := 30, ideal_cycle_time := 20 }
        { current_state := .GREEN, start_time := 0, time_production := 1,
          time_setup := 0, time_downtime := 0, last_update_time := 2,
          total_count := 1, defect_count := 0 } 4).2.2.1 :=
  C5_repeat_call_components { target_steps := 30, ideal_cycle_time := 20 }
    { current_state := .GREEN, start_time := 0, time_production := 1,
      time_setup := 0, time_downtime := 0, last_update_time := 2,
      total_count := 1, defect_count := 0 } 2 4 (by norm_num) (by norm_num)

/-- C6: past the startup guard the quality metric equals
`(total_count - defect_count) / total_count` whenever `total_count > 0`
and equals exactly 1 whenever `total_count = 0`, regardless of
`defect_count`; under the guard (`total_planned < 1`) every metric is 0. -/
theorem C6_quality_formula (cfg : Config) (s : MonitorState) (now : ℚ) :
    (now - s.start_time < 1 →
      OEEMonitor.calculate_oee cfg s now = (0, 0, 0, 0)) ∧
    (1 ≤ now - s.start_time → 0 < s.total_count →
      (OEEMonitor.calculate_oee cfg s now).2.2.1 =
        ((s.total_count : ℚ) - (s.defect_count : ℚ)) / (s.total_count : ℚ)) ∧
    (1 ≤ now - s.start_time → s.total_count = 0 →
      (OEEMonitor.calculate_oee cfg s now).2.2.1 = 1) := by
  refine ⟨fun hg => ?_, fun hg htc => ?_, fun hg htc => ?_⟩
  · unfold OEEMonitor.calculate_oee
    rw [if_pos hg]
  · unfold OEEMonitor.calculate_oee
    rw [if_neg (not_lt.mpr hg)]
    dsimp only
    rw [if_pos htc]
  · unfold OEEMonitor.calculate_oee
    rw [if_neg (not_lt.mpr hg)]
    dsimp only
    rw [if_neg (by simp [htc])]

/-- Witness for C6: two produced units, one defective, two seconds after
start — quality is (2 - 1) / 2. -/
theorem C6_quality_formula_witness :
    (OEEMonitor.calculate_oee { target_steps := 30, ideal_cycle_time := 20 }
        { current_state := .GREEN, start_time := 0, time_production := 1,
          time_setup := 0, time_downtime := 0, last_update_time := 2,
          total_count := 2, defect_count := 1 } 2).2.2.1 =
      (((2:ℤ) : ℚ) - ((1:ℤ) : ℚ)) / ((2:ℤ) : ℚ) :=
  (C6_quality_formula { target_steps := 30, ideal_cycle_time := 20 }
      { current_state := .GREEN, start_time := 0, time_production := 1,
        time_setup := 0, time_downtime := 0, last_update_time := 2,
        total_count := 2, defect_count := 1 } 2).2.1
    (by norm_num) (by norm_num)

/-- The accumulator update never changes the current state. -/
theorem OEEMonitor.update_time_current_state (cfg : Config)
    (s : MonitorState) (now : ℚ) :
    (OEEMonitor.update_time cfg s now).current_state = s.current_state := by
  unfold OEEMonitor.update_time
  cases s.current_state <;> simp only []
  case GREEN => split <;> split <;> rfl

/-- C7 counterexample: with a valid GREEN token already waiting at the
very first iteration, `current_state` is updated before the logging step,
so the single record written by the first iteration is a GREEN record —
not the initial STOPPED record the claim promises. -/
theorem C7_counterexample :
    (OEEMonitor.run_step { target_steps := 30, ideal_cycle_time := 20 }
        (OEEMonitor.initial_loop_state 0 0 0)
        { input := .data "GREEN", now := 1/2, t_hb := 1/2, t_calc := 1/2,
          t_reset := 1/2, log_fails := false }).log.map LogRecord.state =
      [MachineState.GREEN] ∧
    MachineState.GREEN ≠ MachineState.STOPPED := by
  constructor
  · norm_num [OEEMonitor.run_step, OEEMonitor.update_time,
      OEEMonitor.nextState, OEEMonitor.logTrigger,
      OEEMonitor.initial_loop_state, OEEMonitor.run_init, OEEMonitor.init,
      parseToken, pyTrunc, OEEMonitor.log_to_db, OEEMonitor.calculate_oee,
      TickInput.data_eq_linkLost_iff_false,
      show (some MachineState.GREEN = (none : Option MachineState)) = False
        by simp]
  · simp

/-- C7 (amended): on each non-link-lost iteration a write is attempted if
and only if the state after the read step differs from the last-logged
state or at least the 1-second heartbeat interval has elapsed since the
last attempt; that trigger is exactly `state_changed or heartbeat_due`;
with no trigger nothing about the logging state changes; on a trigger the
shared last-write timestamp is reset and the state is remembered as
logged whether or not the write fails (its `log_to_db()` sits in
`try/except`, lines 194-197), and a record — the current snapshot — is
actually appended exactly when the write does not fail; the first
iteration (last-logged state unset) always attempts a write, and the
record it appends carries the state read in that iteration — STOPPED
exactly when no valid token arrived in the first poll. -/
theorem C7_hybrid_logging_policy (cfg : Config) (ls : LoopState) (tk : Tick)
    (hin : tk.input ≠ .linkLost) :
    ((OEEMonitor.run_step cfg ls tk).log.length = ls.log.length + 1 ↔
      (OEEMonitor.logTrigger ls
        (OEEMonitor.nextState ls.ms.current_state tk.input) tk.t_hb = true ∧
       tk.log_fails = false)) ∧
    (OEEMonitor.logTrigger ls
        (OEEMonitor.nextState ls.ms.current_state tk.input) tk.t_hb = true ↔
      (some (OEEMonitor.nextState ls.ms.current_state tk.input) ≠
          ls.last_logged_state ∨ tk.t_hb - ls.last_log_time ≥ 1)) ∧
    (OEEMonitor.logTrigger ls
        (OEEMonitor.nextState ls.ms.current_state tk.input) tk.t_hb = false →
      (OEEMonitor.run_step cfg ls tk).log = ls.log ∧
      (OEEMonitor.run_step cfg ls tk).last_log_time = ls.last_log_time ∧
      (OEEMonitor.run_step cfg ls tk).last_logged_state =
        ls.last_logged_state) ∧
    (OEEMonitor.logTrigger ls
        (OEEMonitor.nextState ls.ms.current_state tk.input) tk.t_hb = true →
      (OEEMonitor.run_step cfg ls tk).last_log_time = tk.t_reset ∧
      (OEEMonitor.run_step cfg ls tk).last_logged_state =
        some (OEEMonitor.nextState ls.ms.current_state tk.input) ∧
      (tk.log_fails = false →
        (OEEMonitor.run_step cfg ls tk).log = ls.log ++
          [OEEMonitor.log_to_db cfg
            (OEEMonitor.update_time cfg
              { ls.ms with
                current_state :=
                  OEEMonitor.nextState ls.ms.current_state tk.input }
              tk.now) tk.t_calc]) ∧
      (tk.log_fails = true →
        (OEEMonitor.run_step cfg ls tk).log = ls.log)) ∧
    (∀ t_start t_upd t_log : ℚ, ∀ tk0 : Tick, tk0.input ≠ .linkLost →
      (OEEMonitor.run_step cfg
          (OEEMonitor.initial_loop_state t_start t_upd t_log)
          tk0).last_logged_state =
        some (OEEMonitor.nextState MachineState.STOPPED tk0.input) ∧
      (tk0.log_fails = false →
        (OEEMonitor.run_step cfg
            (OEEMonitor.initial_loop_state t_start t_upd t_log)
            tk0).log.length = 1 ∧
        ∀ r ∈ (OEEMonitor.run_step cfg
            (OEEMonitor.initial_loop_state t_start t_upd t_log) tk0).log,
          r.state = OEEMonitor.nextState MachineState.STOPPED tk0.input)) := by
  have hcs : (OEEMonitor.update_time cfg
      { ls.ms with
        current_state := OEEMonitor.nextState ls.ms.current_state tk.input }
      tk.now).current_state =
      OEEMonitor.nextState ls.ms.current_state tk.input :=
    OEEMonitor.update_time_current_state cfg _ tk.now
  have hstep : OEEMonitor.run_step cfg ls tk =
      if OEEMonitor.logTrigger ls
          (OEEMonitor.nextState ls.ms.current_state tk.input) tk.t_hb then
        { ms := OEEMonitor.update_time cfg
            { ls.ms with
              current_state :=
                OEEMonitor.nextState ls.ms.current_state tk.input } tk.now
          last_logged_state :=
            some (OEEMonitor.nextState ls.ms.current_state tk.input)
          last_log_time := tk.t_reset
          log := if tk.log_fails then ls.log
            else ls.log ++
              [OEEMonitor.log_to_db cfg
                (OEEMonitor.update_time cfg
                  { ls.ms with
                    current_state :=
                      OEEMonitor.nextState ls.ms.current_state tk.input }
                  tk.now) tk.t_calc] }
      else
        { ls with
          ms := OEEMonitor.update_time cfg
            ({ ls.ms with
               current_state :=
                 OEEMonitor.nextState ls.ms.current_state tk.input }) tk.now } := by
    unfold OEEMonitor.run_step
    rw [if_neg hin]
    dsimp only
    rw [hcs]
  refine ⟨?_, ?_, ?_, ?_, ?_⟩
  · rw [hstep]
    by_cases htr : OEEMonitor.logTrigger ls
        (OEEMonitor.nextState ls.ms.current_state tk.input) tk.t_hb = true
    · rw [if_pos htr]
      cases hf : tk.log_fails
      · simp [htr, hf]
      · simp [htr, hf]
    · rw [if_neg htr]
      simp [htr]
  · unfold OEEMonitor.logTrigger
    simp [ge_iff_le]
  · intro htr
    rw [hstep, if_neg (by simp [htr])]
    exact ⟨rfl, rfl, rfl⟩
  · intro htr
    rw [hstep, if_pos htr]
    refine ⟨rfl, rfl, ?_, ?_⟩
    · intro hf
      dsimp only
      rw [hf]
      simp
    · intro hf
      dsimp only
      rw [hf]
      simp
  · intro t_start t_upd t_log tk0 h0
    have hcs0 : (OEEMonitor.update_time cfg
        { (OEEMonitor.initial_loop_state t_start t_upd t_log).ms with
          current_state :=
            OEEMonitor.nextState MachineState.STOPPED tk0.input }
        tk0.now).current_state =
        OEEMonitor.nextState MachineState.STOPPED tk0.input :=
      OEEMonitor.update_time_current_state cfg _ tk0.now
    have htr0 : OEEMonitor.logTrigger
        (OEEMonitor.initial_loop_state t_start t_upd t_log)
        (OEEMonitor.nextState MachineState.STOPPED tk0.input) tk0.t_hb
        = true := by
      unfold OEEMonitor.logTrigger OEEMonitor.initial_loop_state
        OEEMonitor.run_init
      simp
    have hstep0 : OEEMonitor.run_step cfg
        (OEEMonitor.initial_loop_state t_start t_upd t_log) tk0 =
        { ms := OEEMonitor.update_time cfg
            { (OEEMonitor.initial_loop_state t_start t_upd t_log).ms with
              current_state :=
                OEEMonitor.nextState MachineState.STOPPED tk0.input }
            tk0.now
          last_logged_state :=
            some (OEEMonitor.nextState MachineState.STOPPED tk0.input)
          last_log_time := tk0.t_reset
          log := if tk0.log_fails then []
            else [OEEMonitor.log_to_db cfg
              (OEEMonitor.update_time cfg
                { (OEEMonitor.initial_loop_state t_start t_upd t_log).ms with
                  current_state :=
                    OEEMonitor.nextState MachineState.STOPPED tk0.input }
                tk0.now) tk0.t_calc] } := by
      unfold OEEMonitor.run_step
      rw [if_neg h0]
      dsimp only
      rw [show (OEEMonitor.initial_loop_state t_start t_upd
          t_log).ms.current_state = MachineState.STOPPED from rfl]
      rw [hcs0, if_pos htr0]
      rfl
    rw [hstep0]
    refine ⟨rfl, ?_⟩
    intro hf
    rw [hf]
    refine ⟨by simp, ?_⟩
    intro r hr
    simp only [if_neg (show ¬((false : Bool) = true) by simp),
      List.mem_singleton] at hr
    rw [hr]
    show (OEEMonitor.update_time cfg
        { (OEEMonitor.initial_loop_state t_start t_upd t_log).ms with
          current_state :=
            OEEMonitor.nextState MachineState.STOPPED tk0.input }
        tk0.now).current_state =
      OEEMonitor.nextState MachineState.STOPPED tk0.input
    exact hcs0

/-- Witness for C7: the very first iteration, with no serial data waiting
and a healthy log sink, remembers STOPPED as logged and writes exactly one
STOPPED record. -/
theorem C7_hybrid_logging_policy_witness :
    (OEEMonitor.run_step { target_steps := 30, ideal_cycle_time := 20 }
        (OEEMonitor.initial_loop_state 0 0 0)
        { input := .noData, now := 1/2, t_hb := 1/2, t_calc := 1/2,
          t_reset := 1/2, log_fails := false }).last_logged_state =
      some MachineState.STOPPED ∧
    (OEEMonitor.run_step { target_steps := 30, ideal_cycle_time := 20 }
        (OEEMonitor.initial_loop_state 0 0 0)
        { input := .noData, now := 1/2, t_hb := 1/2, t_calc := 1/2,
          t_reset := 1/2, log_fails := false }).log.length = 1 ∧
    ∀ r ∈ (OEEMonitor.run_step { target_steps := 30, ideal_cycle_time := 20 }
        (OEEMonitor.initial_loop_state 0 0 0)
        { input := .noData, now := 1/2, t_hb := 1/2, t_calc := 1/2,
          t_reset := 1/2, log_fails := false }).log,
      r.state = MachineState.STOPPED := by
  have h := (C7_hybrid_logging_policy
      { target_steps := 30, ideal_cycle_time := 20 }
      (OEEMonitor.initial_loop_state 0 0 0)
      { input := .noData, now := 1/2, t_hb := 1/2, t_calc := 1/2,
        t_reset := 1/2, log_fails := false } (by simp)).2.2.2.2 0 0 0
    { input := .noData, now := 1/2, t_hb := 1/2, t_calc := 1/2,
      t_reset := 1/2, log_fails := false } (by simp)
  exact ⟨h.1, (h.2 rfl).1, (h.2 rfl).2⟩

/-- C8 counterexample: on a malformed configuration file the monitor's
loader does not fall back to defaults — the unguarded `yaml.safe_load`
raises, so loading fails. -/
theorem C8_counterexample :
    oee_monitor.load_config ConfigSource.malformed =
      Except.error "YAMLError" := rfl

/-- C8 (amended): a missing configuration file falls back to the built-in
defaults (`target_steps = 30`, `ideal_cycle_time = 20.0`) in both loaders,
and the dashboard's loader — whose file read sits in `try/except` — also
falls back to the same defaults on a malformed file; the monitor's loader
has no exception handler and raises on a malformed file. -/
theorem C8_config_loading_fallbacks (home_dir : String) :
    oee_monitor.load_config ConfigSource.missing =
      Except.ok oee_monitor.default_config ∧
    oee_monitor.default_config.production.target_steps = 30 ∧
    oee_monitor.default_config.production.ideal_cycle_time = 20 ∧
    (dashboardv1.load_config home_dir ConfigSource.missing).1.target_steps
      = 30 ∧
    (dashboardv1.load_config home_dir
      ConfigSource.missing).1.ideal_cycle_time = 20 ∧
    (dashboardv1.load_config home_dir ConfigSource.missing).1.data_path =
      dashboardv1.default_log_dir home_dir ∧
    dashboardv1.load_config home_dir ConfigSource.malformed =
      dashboardv1.load_config home_dir ConfigSource.missing ∧
    oee_monitor.load_config ConfigSource.malformed =
      Except.error "YAMLError" :=
  ⟨rfl, rfl, rfl, rfl, rfl, rfl, rfl, rfl⟩

/-- C9 counterexample: the absolute path "/etc/passwd" escapes the allowed
directory tree (the project directory under the home directory), yet the
loader accepts it — the configured data path becomes "/etc/passwd" and no
security warning is shown. -/
theorem C9_counterexample :
    spec_escapesAllowedTree ("/home/user" ++ "/oee-project") "/etc/passwd"
      = true ∧
    (dashboardv1.load_config "/home/user"
      (ConfigSource.parsed
        { production := none,
          data_path := some "/etc/passwd" })).1.data_path = "/etc/passwd" ∧
    (dashboardv1.load_config "/home/user"
      (ConfigSource.parsed
        { production := none, data_path := some "/etc/passwd" })).2
      = false := by
  refine ⟨?_, rfl, rfl⟩
  rfl

/-- C9 (amended): the loader rejects a proposed `data_path` — security
warning shown and the default path kept — exactly when the path is
relative (not starting with "/") and starts with ".."; every other
proposed value, including absolute paths and relative paths with embedded
".." traversal, is adopted as-is even when it escapes the allowed
directory tree. -/
theorem C9_data_path_validation (home_dir : String)
    (u : DashboardUserConfig) (p : String) (hp : u.data_path = some p) :
    ((dashboardv1.load_config home_dir (ConfigSource.parsed u)).2 = true ↔
      (os_path_isabs p = false ∧ py_startswith p ".." = true)) ∧
    ((dashboardv1.load_config home_dir (ConfigSource.parsed u)).2 = true →
      (dashboardv1.load_config home_dir
        (ConfigSource.parsed u)).1.data_path =
        dashboardv1.default_log_dir home_dir) ∧
    ((dashboardv1.load_config home_dir (ConfigSource.parsed u)).2 = false →
      (dashboardv1.load_config home_dir
        (ConfigSource.parsed u)).1.data_path = p) := by
  obtain ⟨prod, dp⟩ := u
  dsimp only at hp
  subst hp
  cases hb : os_path_isabs p <;> cases hs : py_startswith p ".." <;>
    cases prod <;>
      simp [dashboardv1.load_config, hb, hs, dashboardv1.default_log_dir]

/-- Witness for C9 at a concrete input: the relative path "../x" starting
with ".." is rejected — the warning fires and the default path stays. -/
theorem C9_data_path_validation_witness :
    (dashboardv1.load_config "/home/user"
      (ConfigSource.parsed { production := none, data_path := some "../x" })).2
      = true ∧
    (dashboardv1.load_config "/home/user"
      (ConfigSource.parsed
        { production := none, data_path := some "../x" })).1.data_path =
      dashboardv1.default_log_dir "/home/user" := by
  have h := C9_data_path_validation "/home/user"
    { production := none, data_path := some "../x" } "../x" rfl
  have h2 : (dashboardv1.load_config "/home/user"
      (ConfigSource.parsed
        { production := none, data_path := some "../x" })).2 = true :=
    h.1.mpr ⟨rfl, rfl⟩
  exact ⟨h2, h.2.1 h2⟩

/-- The accumulator update never changes `defect_count`. -/
theorem OEEMonitor.update_time_defect_count (cfg : Config)
    (s : MonitorState) (now : ℚ) :
    (OEEMonitor.update_time cfg s now).defect_count = s.defect_count := by
  unfold OEEMonitor.update_time
  cases s.current_state <;> simp only []
  case GREEN => split <;> split <;> rfl

/-- Python rounding of 0 to one decimal is 0. -/
theorem round1_zero : round1 0 = 0 := by
  norm_num [round1, roundHalfEven]

/-- Python rounding of 100 to one decimal is 100. -/
theorem round1_hundred : round1 100 = 100 := by
  norm_num [round1, roundHalfEven]

/-- With `defect_count = 0` the quality metric is either 0 (startup guard)
or exactly 1. -/
theorem OEEMonitor.calculate_oee_quality_zero_defect (cfg : Config)
    (s : MonitorState) (now : ℚ) (h : s.defect_count = 0) :
    (OEEMonitor.calculate_oee cfg s now).2.2.1 = 0 ∨
    (OEEMonitor.calculate_oee cfg s now).2.2.1 = 1 := by
  unfold OEEMonitor.calculate_oee
  by_cases hg : now - s.start_time < 1
  · left; rw [if_pos hg]
  · right
    rw [if_neg hg]
    dsimp only
    split
    · next htc =>
        rw [h]
        push_cast
        rw [sub_zero]
        exact div_self (by exact_mod_cast ne_of_gt htc)
    · rfl

/-- The `defect_count` column of a written row is the monitor's counter. -/
theorem OEEMonitor.log_to_db_defect_count (cfg : Config) (s : MonitorState)
    (t : ℚ) :
    (OEEMonitor.log_to_db cfg s t).defect_count = s.defect_count := rfl

/-- The quality column of a written row is the metric scaled to a
percentage and rounded to one decimal. -/
theorem OEEMonitor.log_to_db_quality (cfg : Config) (s : MonitorState)
    (t : ℚ) :
    (OEEMonitor.log_to_db cfg s t).quality =
      round1 ((OEEMonitor.calculate_oee cfg s t).2.2.1 * 100) := rfl

/-- One iteration preserves `defect_count = 0` and every written row
carries `defect_count = 0` and a quality column of 0 or 100. -/
theorem OEEMonitor.run_step_defect_invariant (cfg : Config) (ls : LoopState)
    (tk : Tick) (h0 : ls.ms.defect_count = 0)
    (hlog : ∀ r ∈ ls.log,
      r.defect_count = 0 ∧ (r.quality = 0 ∨ r.quality = 100)) :
    (OEEMonitor.run_step cfg ls tk).ms.defect_count = 0 ∧
    ∀ r ∈ (OEEMonitor.run_step cfg ls tk).log,
      r.defect_count = 0 ∧ (r.quality = 0 ∨ r.quality = 100) := by
  by_cases hin : tk.input = .linkLost
  · unfold OEEMonitor.run_step
    rw [if_pos hin]
    exact ⟨h0, hlog⟩
  · have hms : (OEEMonitor.update_time cfg
        ({ ls.ms with
           current_state :=
             OEEMonitor.nextState ls.ms.current_state tk.input })
        tk.now).defect_count = 0 := by
      rw [OEEMonitor.update_time_defect_count]
      exact h0
    unfold OEEMonitor.run_step
    rw [if_neg hin]
    dsimp only
    split
    · refine ⟨hms, ?_⟩
      intro r hr
      cases hf : tk.log_fails
      · rw [hf] at hr
        rw [if_neg (show ¬((false : Bool) = true) by simp)] at hr
        rw [List.mem_append] at hr
        rcases hr with hr | hr
        · exact hlog r hr
        · rw [List.mem_singleton] at hr
          subst hr
          refine ⟨?_, ?_⟩
          · rw [OEEMonitor.log_to_db_defect_count]
            exact hms
          · rw [OEEMonitor.log_to_db_quality]
            rcases OEEMonitor.calculate_oee_quality_zero_defect cfg _
                tk.t_calc hms with hq | hq
            · left; rw [hq, zero_mul, round1_zero]
            · right; rw [hq, one_mul, round1_hundred]
      · rw [hf] at hr
        rw [if_pos rfl] at hr
        exact hlog r hr
    · exact ⟨hms, hlog⟩

/-- Over any run, `defect_count = 0` is preserved and every written row
carries `defect_count = 0` and a quality column of 0 or 100. -/
theorem OEEMonitor.run_defect_invariant (cfg : Config) (ls : LoopState)
    (ticks : List Tick) (h0 : ls.ms.defect_count = 0)
    (hlog : ∀ r ∈ ls.log,
      r.defect_count = 0 ∧ (r.quality = 0 ∨ r.quality = 100)) :
    (OEEMonitor.run cfg ls ticks).ms.defect_count = 0 ∧
    ∀ r ∈ (OEEMonitor.run cfg ls ticks).log,
      r.defect_count = 0 ∧ (r.quality = 0 ∨ r.quality = 100) := by
  induction ticks generalizing ls with
  | nil => exact ⟨h0, hlog⟩
  | cons tk rest ih =>
      have hstep := OEEMonitor.run_step_defect_invariant cfg ls tk h0 hlog
      exact ih (OEEMonitor.run_step cfg ls tk) hstep.1 hstep.2

/-- C10: throughout every run from the initial state, `defect_count` stays
at its initialization value 0; every persisted record has
`defect_count = 0` and a persisted quality column of either 0 (startup
guard) or 100 (the ×100 scaling of quality 1); and whenever
`total_count > 0` and the startup guard has passed, the computed quality
metric equals exactly 1. -/
theorem C10_defect_count_zero_and_quality_one (cfg : Config)
    (t_start t_upd t_log : ℚ) (ticks : List Tick) :
    (OEEMonitor.run cfg (OEEMonitor.initial_loop_state t_start t_upd t_log)
      ticks).ms.defect_count = 0 ∧
    (∀ r ∈ (OEEMonitor.run cfg
        (OEEMonitor.initial_loop_state t_start t_upd t_log) ticks).log,
      r.defect_count = 0 ∧ (r.quality = 0 ∨ r.quality = 100)) ∧
    (∀ now : ℚ,
      1 ≤ now - (OEEMonitor.run cfg
        (OEEMonitor.initial_loop_state t_start t_upd t_log)
        ticks).ms.start_time →
      0 < (OEEMonitor.run cfg
        (OEEMonitor.initial_loop_state t_start t_upd t_log)
        ticks).ms.total_count →
      (OEEMonitor.calculate_oee cfg
        (OEEMonitor.run cfg (OEEMonitor.initial_loop_state t_start t_upd
          t_log) ticks).ms now).2.2.1 = 1) := by
  have hinv := OEEMonitor.run_defect_invariant cfg
    (OEEMonitor.initial_loop_state t_start t_upd t_log) ticks rfl
    (by intro r hr
        simp [OEEMonitor.initial_loop_state, OEEMonitor.run_init] at hr)
  refine ⟨hinv.1, hinv.2, ?_⟩
  intro now hg htc
  unfold OEEMonitor.calculate_oee
  rw [if_neg (not_lt.mpr hg)]
  dsimp only
  rw [if_pos htc, hinv.1]
  push_cast
  rw [sub_zero]
  exact div_self (by exact_mod_cast ne_of_gt htc)

/-- Witness for C10: after one 40-second GREEN tick two units are counted
and no defect is recorded, so quality computed at t = 41 is exactly 1. -/
theorem C10_defect_count_zero_and_quality_one_witness :
    (OEEMonitor.calculate_oee { target_steps := 30, ideal_cycle_time := 20 }
      (OEEMonitor.run { target_steps := 30, ideal_cycle_time := 20 }
        (OEEMonitor.initial_loop_state 0 0 0)
        [{ input := .data "GREEN", now := 40, t_hb := 40, t_calc := 40,
           t_reset := 40, log_fails := false }]).ms 41).2.2.1 = 1 :=
  (C10_defect_count_zero_and_quality_one
      { target_steps := 30, ideal_cycle_time := 20 } 0 0 0
      [{ input := .data "GREEN", now := 40, t_hb := 40, t_calc := 40,
         t_reset := 40, log_fails := false }]).2.2 41
    (by norm_num [OEEMonitor.run, OEEMonitor.run_step, OEEMonitor.update_time,
      OEEMonitor.nextState, OEEMonitor.logTrigger,
      OEEMonitor.initial_loop_state, OEEMonitor.run_init, OEEMonitor.init,
      parseToken, pyTrunc, TickInput.data_eq_linkLost_iff_false])
    (by norm_num [OEEMonitor.run, OEEMonitor.run_step, OEEMonitor.update_time,
      OEEMonitor.nextState, OEEMonitor.logTrigger,
      OEEMonitor.initial_loop_state, OEEMonitor.run_init, OEEMonitor.init,
      parseToken, pyTrunc, TickInput.data_eq_linkLost_iff_false])
